import Mathlib

/-
  Shallow embedding of the pattern-parsing subsystem (lib/Parse/ParsePattern.cpp)
  of the early Swift front end.  Pure functions model the parser routines; the
  parser state (token stream plus emitted diagnostics) is passed explicitly.
  External collaborators (type parser, expression parser) are modelled at their
  interface: a single token carries the already-parsed artifact.
-/

/-- Types, as far as this subsystem observes them: a named base type and the
array-slice constructor applied by the vararg rewrite (ArraySliceType::get). -/
inductive Ty where
  | namedTy : String → Ty
  | slice : Ty → Ty
deriving DecidableEq, Repr

/-- A variable declaration created for a Named pattern: identifier text and
declaration-site location. -/
structure VarDecl where
  name : String
  loc : Nat
deriving DecidableEq, Repr

/-- Token kinds observed by the pattern parser.  A typeTok models the external
type parser succeeding with the given type; an exprTok models the external
expression parser succeeding with the given (opaque) expression handle. -/
inductive TokKind where
  | l_paren
  | r_paren
  | comma
  | colon
  | equal
  | ellipsis
  | arrow
  | eof
  | unknown
  | identifier : String → TokKind
  | kw : String → TokKind
  | typeTok : Ty → TokKind
  | exprTok : Nat → TokKind
deriving DecidableEq, Repr

/-- A token: kind plus source location. -/
structure Token where
  kind : TokKind
  loc : Nat
deriving DecidableEq, Repr

/-- Diagnostic kinds emitted by ParsePattern.cpp (diag::... names). -/
inductive DiagKind where
  | nonFuncDeclPatternInit
  | tupleEllipsisInit
  | untypedPatternEllipsis
  | ellipsisPatternNotAtEnd
  | expectedPatternIsKeyword
  | expectedPattern
  | expectedRparenTuplePatternList
  | funcSelectorWithoutParen
  | funcSelectorWithNotOneArgument
  | funcSelectorWithCurry
  | redefinition
  | expectedInitializerExpr
  | expectedTypeDiag
deriving DecidableEq, Repr

/-- Parser state: the remaining token stream and the diagnostics emitted so
far.  The diagnostic sink is write-only (never consulted for control flow). -/
structure PState where
  toks : List Token
  diags : List DiagKind
deriving DecidableEq, Repr

/-- One-token lookahead (Parser::Tok); an exhausted stream reads as eof. -/
def peek (st : PState) : TokKind :=
  match st.toks with
  | [] => TokKind.eof
  | t :: _ => t.kind

/-- Location of the lookahead token. -/
def peekLoc (st : PState) : Nat :=
  match st.toks with
  | [] => 0
  | t :: _ => t.loc

/-- Consume the lookahead token (Parser::consumeToken). -/
def consume (st : PState) : PState :=
  ⟨st.toks.tail, st.diags⟩

/-- Emit a diagnostic (Parser::diagnose); records and returns. -/
def diagnose (d : DiagKind) (st : PState) : PState :=
  ⟨st.toks, st.diags ++ [d]⟩

mutual
/-- Pattern AST: Any (wildcard), Named (binding), Typed (type-annotated),
Paren (grouping), Tuple (element list). -/
inductive Pattern where
  | anyP : Pattern
  | named : VarDecl → Pattern
  | typed : Pattern → Ty → Pattern
  | paren : Pattern → Pattern
  | tuple : List TuplePatternElt → Pattern

/-- TuplePatternElt: the element's pattern, its optional default-initializer
handle, and its optional vararg base type (present iff the element is
variadic). -/
inductive TuplePatternElt where
  | mk : Pattern → Option Nat → Option Ty → TuplePatternElt
end

def TuplePatternElt.pattern : TuplePatternElt → Pattern
  | ⟨p, _, _⟩ => p

def TuplePatternElt.getInit : TuplePatternElt → Option Nat
  | ⟨_, i, _⟩ => i

def TuplePatternElt.varargBaseType : TuplePatternElt → Option Ty
  | ⟨_, _, v⟩ => v

/-- Modelled from the spec: an element is variadic exactly when its
vararg-element-type is present (TuplePatternElt::isVararg, declared outside
this translation unit). -/
def TuplePatternElt.isVararg (e : TuplePatternElt) : Bool :=
  e.varargBaseType.isSome

/-- Modelled from the spec: demotion to non-vararg clears only the vararg
marking (TuplePatternElt::revertToNonVariadic, declared outside this
translation unit; per the spec the only mutations are vararg→non-vararg,
tuple→paren collapse, and the vararg type rewrite). -/
def TuplePatternElt.revertToNonVariadic (e : TuplePatternElt) : TuplePatternElt :=
  ⟨e.pattern, e.getInit, none⟩

/-- Modelled from the spec: the derived bound-name query — Any yields the
empty name, Named its binding's identifier, Typed and Paren are transparent,
Tuple is not applicable (empty). -/
def boundName : Pattern → String
  | Pattern.anyP => ""
  | Pattern.named d => d.name
  | Pattern.typed p _ => boundName p
  | Pattern.paren p => boundName p
  | Pattern.tuple _ => ""

/-- Whether a pattern is a Typed pattern at the outermost level (a dyn_cast
to TypedPattern succeeding). -/
def isTyped : Pattern → Bool
  | Pattern.typed _ _ => true
  | _ => false

/-- Modelled from the spec: the external type parser, consuming one
already-parsed type token; on failure it is fatal to the enclosing parse. -/
def parseTypeAnnot (st : PState) : Option Ty × PState :=
  match st.toks with
  | ⟨TokKind.typeTok ty, _⟩ :: rest => (some ty, ⟨rest, st.diags⟩)
  | _ => (none, diagnose DiagKind.expectedTypeDiag st)

/-- Modelled from the spec: the external expression parser, consuming one
already-parsed expression token; its result is stored as an opaque handle. -/
def parseExpr (st : PState) : Option Nat × PState :=
  match st.toks with
  | ⟨TokKind.exprTok e, _⟩ :: rest => (some e, ⟨rest, st.diags⟩)
  | _ => (none, diagnose DiagKind.expectedInitializerExpr st)

/-- Parser::parsePatternIdentifier — an identifier as a pattern; the literal
underscore yields Any, anything else allocates a VarDecl for a Named. -/
def parsePatternIdentifier (st : PState) : Option Pattern × PState :=
  match st.toks with
  | ⟨TokKind.identifier text, loc⟩ :: rest =>
    if text = "_" then (some Pattern.anyP, ⟨rest, st.diags⟩)
    else (some (Pattern.named ⟨text, loc⟩), ⟨rest, st.diags⟩)
  | _ => (none, st)

/-- The vararg-must-be-last enforcement step of Parser::parsePatternTuple
(lines 393–400): if the element list is nonempty and its last element is
vararg, diagnose and demote that element to non-vararg. -/
def varargDemoteStep (elts : List TuplePatternElt) (st : PState) :
    List TuplePatternElt × PState :=
  match elts.getLast? with
  | some last =>
    if last.isVararg then
      (elts.dropLast ++ [last.revertToNonVariadic],
       diagnose DiagKind.ellipsisPatternNotAtEnd st)
    else (elts, st)
  | none => (elts, st)

/-- The singleton-collapse decision of Parser::parsePatternTuple (lines
410–417): a single element with no initializer, empty bound-name and no
vararg marking becomes a Paren; everything else a Tuple. -/
def mkTuplePatternResult (elts : List TuplePatternElt) : Pattern :=
  match elts with
  | [elt] =>
    if elt.getInit.isNone && (boundName elt.pattern == "") && !elt.isVararg then
      Pattern.paren elt.pattern
    else Pattern.tuple elts
  | _ => Pattern.tuple elts

/-- The ellipsis handling of Parser::parsePatternTupleElement (lines
337–366), applied to the element built so far: no ellipsis → unchanged;
ellipsis with a stored initializer → diagnosed, ellipsis consumed, element
unchanged; ellipsis on a non-Typed pattern → diagnosed, left non-vararg;
otherwise record the declared type as vararg base type and rewrite the
Typed pattern's type to its slice. -/
def tupleEltEllipsis (result : TuplePatternElt) (st : PState) :
    Option TuplePatternElt × PState :=
  match peek st with
  | TokKind.ellipsis =>
    if result.getInit.isSome then
      (some result, consume (diagnose DiagKind.tupleEllipsisInit st))
    else
      let st₁ := consume st
      match result.pattern with
      | Pattern.typed sub ty =>
        (some ⟨Pattern.typed sub (Ty.slice ty), result.getInit, some ty⟩, st₁)
      | _ => (some result, diagnose DiagKind.untypedPatternEllipsis st₁)
  | _ => (some result, st)

mutual
/-- Parser::parsePatternAtom — dispatch on the leading token. -/
def parsePatternAtom : Nat → PState → Option Pattern × PState
  | 0, st => (none, st)
  | fuel + 1, st =>
    match peek st with
    | TokKind.l_paren => parsePatternTuple fuel false st
    | TokKind.identifier _ => parsePatternIdentifier st
    | TokKind.kw _ => (none, consume (diagnose DiagKind.expectedPatternIsKeyword st))
    | _ => (none, diagnose DiagKind.expectedPattern st)

/-- Parser::parsePattern — a pattern atom with an optional type annotation. -/
def parsePattern : Nat → PState → Option Pattern × PState
  | 0, st => (none, st)
  | fuel + 1, st =>
    match parsePatternAtom fuel st with
    | (none, st₁) => (none, st₁)
    | (some pat, st₁) =>
      match peek st₁ with
      | TokKind.colon =>
        let st₂ := consume st₁
        match parseTypeAnnot st₂ with
        | (none, st₃) => (none, st₃)
        | (some ty, st₃) => (some (Pattern.typed pat ty), st₃)
      | _ => (some pat, st₁)

/-- Parser::parsePatternTupleElement — pattern, optional '=' initializer
(diagnosed and dropped when not allowed), then ellipsis handling. -/
def parsePatternTupleElement : Nat → Bool → PState → Option TuplePatternElt × PState
  | 0, _, st => (none, st)
  | fuel + 1, allowInitExpr, st =>
    match parsePattern fuel st with
    | (none, st₁) => (none, st₁)
    | (some pat, st₁) =>
      match peek st₁ with
      | TokKind.equal =>
        let stA := consume st₁
        let stB := if allowInitExpr then stA else diagnose DiagKind.nonFuncDeclPatternInit stA
        match parseExpr stB with
        | (someInit, stC) =>
          let init := if allowInitExpr then someInit else none
          tupleEltEllipsis ⟨pat, init, none⟩ stC
      | _ => tupleEltEllipsis ⟨pat, none, none⟩ st₁

/-- The element loop of Parser::parsePatternTuple (the parseList body):
elements separated by commas, closed by a right paren; before appending an
element, an earlier vararg last element is demoted. -/
def parseTupleEltsLoop : Nat → Bool → List TuplePatternElt → PState →
    Option (List TuplePatternElt) × PState
  | 0, _, _, st => (none, st)
  | fuel + 1, allowInitExpr, elts, st =>
    match parsePatternTupleElement fuel allowInitExpr st with
    | (none, st₁) => (none, st₁)
    | (some elt, st₁) =>
      let ds := varargDemoteStep elts st₁
      let elts₂ := ds.1 ++ [elt]
      match peek ds.2 with
      | TokKind.comma => parseTupleEltsLoop fuel allowInitExpr elts₂ (consume ds.2)
      | TokKind.r_paren => (some elts₂, consume ds.2)
      | _ => (none, diagnose DiagKind.expectedRparenTuplePatternList ds.2)

/-- Parser::parsePatternTuple — '(' elements ')' with the singleton-collapse
rule applied on close; an empty list is valid. -/
def parsePatternTuple : Nat → Bool → PState → Option Pattern × PState
  | 0, _, st => (none, st)
  | fuel + 1, allowInitExpr, st =>
    match peek st with
    | TokKind.l_paren =>
      match peek (consume st) with
      | TokKind.r_paren => (some (mkTuplePatternResult []), consume (consume st))
      | _ =>
        match parseTupleEltsLoop fuel allowInitExpr [] (consume st) with
        | (none, st₂) => (none, st₂)
        | (some elts, st₂) => (some (mkTuplePatternResult elts), st₂)
    | _ => (none, st)
end

/-- Parser::skipUntil(tok::r_paren) on the raw token list: drop tokens until
a right paren (or the end of the stream) is the lookahead. -/
def skipToksUntilRParen : List Token → List Token
  | [] => []
  | t :: rest =>
    match t.kind with
    | TokKind.r_paren => t :: rest
    | _ => skipToksUntilRParen rest

/-- Parser::skipUntil(tok::r_paren) as a state transformer. -/
def skipUntilRParen (st : PState) : PState :=
  ⟨skipToksUntilRParen st.toks, st.diags⟩

/-- The duplicate-name check of parseSelectorArgument (lines 63–72): a Named
pattern's identifier already in the selector-name table is diagnosed as a
redefinition and the table is left unchanged (the first binding wins);
otherwise the binding is recorded.  Non-Named patterns are not checked. -/
def selectorNameCheck (argPattern : Pattern)
    (selectorNames : List (String × VarDecl)) (st : PState) :
    List (String × VarDecl) × PState :=
  match argPattern with
  | Pattern.named d =>
    match selectorNames.lookup d.name with
    | some _ => (selectorNames, diagnose DiagKind.redefinition st)
    | none => (selectorNames ++ [(d.name, d)], st)
  | _ => (selectorNames, st)

/-- parseSelectorArgument — one selector clause
identifier '(' pattern-atom (':' type)? ('=' expr)? ')'.  Returns the
argument-side and body-side elements on success, together with the updated
selector-name table (updated even when a later step fails, as in the
source, where the table is mutated before the paren checks). -/
def parseSelectorArgument (fuel : Nat) (selectorNames : List (String × VarDecl))
    (st : PState) :
    Option (TuplePatternElt × TuplePatternElt) × List (String × VarDecl) × PState :=
  match parsePatternIdentifier st with
  | (none, st₁) => (none, selectorNames, st₁)
  | (some argPattern, st₁) =>
    let ns := selectorNameCheck argPattern selectorNames st₁
    let names₁ := ns.1
    let st₂ := ns.2
    match peek st₂ with
    | TokKind.l_paren =>
      let st₃ := consume st₂
      match peek st₃ with
      | TokKind.r_paren =>
        (none, names₁, diagnose DiagKind.funcSelectorWithNotOneArgument st₃)
      | _ =>
        match parsePatternAtom fuel st₃ with
        | (none, st₄) => (none, names₁, skipUntilRParen st₄)
        | (some bodyPattern, st₄) =>
          let tpR :=
            match peek st₄ with
            | TokKind.colon =>
              let stC := consume st₄
              match parseTypeAnnot stC with
              | (none, stD) => (none, stD)
              | (some ty, stD) =>
                (some (Pattern.typed argPattern ty, Pattern.typed bodyPattern ty), stD)
            | _ => (some (argPattern, bodyPattern), st₄)
          match tpR with
          | (none, stD) => (none, names₁, skipUntilRParen stD)
          | (some (argPattern₁, bodyPattern₁), st₅) =>
            let inR :=
              match peek st₅ with
              | TokKind.equal =>
                let stE := consume st₅
                match parseExpr stE with
                | (none, stF) => (none, stF)
                | (some e, stF) => (some (some e), stF)
              | _ => (some none, st₅)
            match inR with
            | (none, stF) => (none, names₁, skipUntilRParen stF)
            | (some init, st₆) =>
              match peek st₆ with
              | TokKind.comma =>
                (none, names₁,
                 skipUntilRParen (diagnose DiagKind.funcSelectorWithNotOneArgument st₆))
              | TokKind.r_paren =>
                (some (⟨argPattern₁, init, none⟩, ⟨bodyPattern₁, init, none⟩),
                 names₁, consume st₆)
              | _ =>
                (none, names₁,
                 diagnose DiagKind.expectedRparenTuplePatternList st₆)
    | _ => (none, names₁, diagnose DiagKind.funcSelectorWithoutParen st₂)

/-- getFirstSelectorPattern — an anonymous Any pattern, wrapped in a Typed
pattern with the same annotation exactly when the given pattern was Typed. -/
def getFirstSelectorPattern (argPattern : Pattern) : Pattern :=
  match argPattern with
  | Pattern.typed _ ty => Pattern.typed Pattern.anyP ty
  | _ => Pattern.anyP

/-- The first-clause conversion of parseSelectorFunctionArguments (lines
151–175): a Paren contributes its sub-pattern on the body side and a fresh
anonymized pattern on the argument side; a one-field Tuple carries its
field's initializer and vararg base type over; any other field count is
fatal.  A shape that is neither Paren nor Tuple is unreachable in the
source (llvm_unreachable), modelled as plain failure. -/
def firstSelectorElts (firstPattern : Pattern) (st : PState) :
    Option (TuplePatternElt × TuplePatternElt) × PState :=
  match firstPattern with
  | Pattern.paren sub =>
    (some (⟨getFirstSelectorPattern sub, none, none⟩, ⟨sub, none, none⟩), st)
  | Pattern.tuple [e] =>
    (some (⟨getFirstSelectorPattern e.pattern, e.getInit, e.varargBaseType⟩, e), st)
  | Pattern.tuple _ => (none, diagnose DiagKind.funcSelectorWithNotOneArgument st)
  | _ => (none, st)

/-- The selector loop of parseSelectorFunctionArguments (lines 181–191):
while an identifier leads, parse one selector clause and append its element
to both trees; a left paren means curried syntax after selector syntax
began and is fatal; anything else terminates the loop. -/
def selectorLoop : Nat → List TuplePatternElt → List TuplePatternElt →
    List (String × VarDecl) → PState →
    Option (List TuplePatternElt × List TuplePatternElt) × PState
  | 0, _, _, _, st => (none, st)
  | fuel + 1, argElts, bodyElts, names, st =>
    match peek st with
    | TokKind.identifier _ =>
      match parseSelectorArgument fuel names st with
      | (none, _, st₁) => (none, st₁)
      | (some (a, b), names₁, st₁) =>
        selectorLoop fuel (argElts ++ [a]) (bodyElts ++ [b]) names₁ st₁
    | TokKind.l_paren => (none, diagnose DiagKind.funcSelectorWithCurry st)
    | _ => (some (argElts, bodyElts), st)

/-- parseSelectorFunctionArguments — convert the first clause, run the
selector loop with a fresh selector-name table, and wrap both element lists
into Tuple patterns (never collapsed to Paren). -/
def parseSelectorFunctionArguments (fuel : Nat) (firstPattern : Pattern)
    (st : PState) : Option (Pattern × Pattern) × PState :=
  match firstSelectorElts firstPattern st with
  | (none, st₁) => (none, st₁)
  | (some (a, b), st₁) =>
    match selectorLoop fuel [a] [b] [] st₁ with
    | (none, st₂) => (none, st₂)
    | (some (argElts, bodyElts), st₂) =>
      (some (Pattern.tuple argElts, Pattern.tuple bodyElts), st₂)

/-- parseCurriedFunctionArguments — while a left paren leads, parse another
tuple clause (initializers permitted) and append it identically to both
trees. -/
def parseCurriedFunctionArguments : Nat → List Pattern → List Pattern → PState →
    Option (List Pattern × List Pattern) × PState
  | 0, _, _, st => (none, st)
  | fuel + 1, argP, bodyP, st =>
    match peek st with
    | TokKind.l_paren =>
      match parsePatternTuple fuel true st with
      | (none, st₁) => (none, st₁)
      | (some p, st₁) => parseCurriedFunctionArguments fuel (argP ++ [p]) (bodyP ++ [p]) st₁
    | _ => (some (argP, bodyP), st)

/-- Parser::parseFunctionArguments — first clause via the tuple parser with
initializers permitted, then the one-token lookahead dispatch: identifier →
selector style, otherwise curried style. -/
def parseFunctionArguments : Nat → PState →
    Option (List Pattern × List Pattern) × PState
  | 0, st => (none, st)
  | fuel + 1, st =>
    match parsePatternTuple fuel true st with
    | (none, st₁) => (none, st₁)
    | (some firstPattern, st₁) =>
      match peek st₁ with
      | TokKind.identifier _ =>
        match parseSelectorFunctionArguments fuel firstPattern st₁ with
        | (none, st₂) => (none, st₂)
        | (some (argT, bodyT), st₂) => (some ([argT], [bodyT]), st₂)
      | _ => parseCurriedFunctionArguments fuel [firstPattern] [firstPattern] st₁

/-- Parser::parseFunctionSignature — arguments plus an optional '->' result
type; its absence leaves the result type unspecified. -/
def parseFunctionSignature : Nat → PState →
    Option (List Pattern × List Pattern × Option Ty) × PState
  | 0, st => (none, st)
  | fuel + 1, st =>
    match parseFunctionArguments fuel st with
    | (none, st₁) => (none, st₁)
    | (some (argP, bodyP), st₁) =>
      match peek st₁ with
      | TokKind.arrow =>
        let st₂ := consume st₁
        match parseTypeAnnot st₂ with
        | (none, st₃) => (none, st₃)
        | (some ty, st₃) => (some (argP, bodyP, some ty), st₃)
      | _ => (some (argP, bodyP, none), st₁)

/-
  Theorems.  Shared helper lemmas first.
-/

theorem varargDemoteStep_all (elts : List TuplePatternElt) (st : PState)
    (h : ∀ e ∈ elts.dropLast, e.isVararg = false) :
    ∀ e ∈ (varargDemoteStep elts st).1, e.isVararg = false := by
  rcases hg : elts.getLast? with _ | last
  · have he : elts = [] := by
      cases elts with
      | nil => rfl
      | cons a l => simp [List.getLast?_eq_getLast (a :: l) (by simp)] at hg
    subst he
    simp [varargDemoteStep]
  · have hne : elts ≠ [] := by
      intro he
      subst he
      simp at hg
    have hlast : elts.getLast hne = last := by
      have h2 := List.getLast?_eq_getLast elts hne
      rw [hg] at h2
      exact (Option.some.injEq _ _).mp h2.symm
    by_cases hv : last.isVararg = true
    · intro e he
      have hstep : (varargDemoteStep elts st).1 =
          elts.dropLast ++ [last.revertToNonVariadic] := by
        simp [varargDemoteStep, hg, hv]
      rw [hstep] at he
      rcases List.mem_append.mp he with h1 | h2
      · exact h e h1
      · have : e = last.revertToNonVariadic := by simpa using h2
        subst this
        simp [TuplePatternElt.isVararg, TuplePatternElt.revertToNonVariadic,
          TuplePatternElt.varargBaseType]
    · intro e he
      have hstep : (varargDemoteStep elts st).1 = elts := by
        simp [varargDemoteStep, hg, hv]
      rw [hstep] at he
      rw [← List.dropLast_append_getLast hne] at he
      rcases List.mem_append.mp he with h1 | h2
      · exact h e h1
      · have : e = elts.getLast hne := by simpa using h2
        subst this
        rw [hlast]
        exact Bool.not_eq_true _ ▸ (by simpa using hv)

theorem parseTupleEltsLoop_nonlast :
    ∀ (fuel : Nat) (allowInitExpr : Bool) (elts : List TuplePatternElt) (st : PState)
      (res : List TuplePatternElt) (st' : PState),
      parseTupleEltsLoop fuel allowInitExpr elts st = (some res, st') →
      (∀ e ∈ elts.dropLast, e.isVararg = false) →
      ∀ e ∈ res.dropLast, e.isVararg = false := by
  intro fuel
  induction fuel with
  | zero =>
    intro allowInitExpr elts st res st' h hacc
    simp [parseTupleEltsLoop] at h
  | succ fuel ih =>
    intro allowInitExpr elts st res st' h hacc
    rw [parseTupleEltsLoop] at h
    rcases hpe : parsePatternTupleElement fuel allowInitExpr st with ⟨r, st₁⟩
    rw [hpe] at h
    cases r with
    | none => simp at h
    | some elt =>
      simp only at h
      rcases hds : varargDemoteStep elts st₁ with ⟨elts₁, st₂⟩
      rw [hds] at h
      have hall : ∀ e ∈ elts₁, e.isVararg = false := by
        intro e he
        exact varargDemoteStep_all elts st₁ hacc e (by rw [hds]; exact he)
      split at h
      · exact ih allowInitExpr (elts₁ ++ [elt]) (consume st₂) res st' h
          (by rw [List.dropLast_concat]; exact hall)
      · have hres : res = elts₁ ++ [elt] := by
          simp only [Prod.mk.injEq, Option.some.injEq] at h
          exact h.1.symm
        subst hres
        rw [List.dropLast_concat]
        exact hall
      · simp at h

theorem parsePatternTuple_shape (fuel : Nat) (allowInitExpr : Bool) (st : PState)
    (p : Pattern) (st' : PState)
    (h : parsePatternTuple fuel allowInitExpr st = (some p, st')) :
    ∃ elts, p = mkTuplePatternResult elts ∧ ∀ e ∈ elts.dropLast, e.isVararg = false := by
  cases fuel with
  | zero => simp [parsePatternTuple] at h
  | succ fuel =>
    rw [parsePatternTuple] at h
    split at h
    · split at h
      · simp only [Prod.mk.injEq, Option.some.injEq] at h
        exact ⟨[], h.1.symm, by simp⟩
      · split at h
        · simp at h
        · rename_i elts st₂ heq
          simp only [Prod.mk.injEq, Option.some.injEq] at h
          exact ⟨elts, h.1.symm,
            parseTupleEltsLoop_nonlast fuel allowInitExpr [] _ elts st₂ heq (by simp)⟩
    · simp at h

theorem mkTuplePatternResult_tuple_eq (elts₀ elts : List TuplePatternElt)
    (h : mkTuplePatternResult elts₀ = Pattern.tuple elts) : elts = elts₀ := by
  cases elts₀ with
  | nil =>
    simp only [mkTuplePatternResult] at h
    injection h with h1
    exact h1.symm
  | cons a l =>
    cases l with
    | nil =>
      simp only [mkTuplePatternResult] at h
      split at h
      · exact Pattern.noConfusion h
      · injection h with h1
        exact h1.symm
    | cons b l2 =>
      simp only [mkTuplePatternResult] at h
      injection h with h1
      exact h1.symm

/-- Claim C2: a successful tuple-pattern parse produces a Paren wrapping the
single element's pattern exactly when the element list is one element with
no default initializer, no vararg marking and an empty bound-name; every
other list — the empty list (a zero-element Tuple) and a single element
with a non-empty bound-name included — produces a Tuple node. -/
theorem claim2_singleton_collapse :
    (∀ fuel allowInitExpr st p st',
        parsePatternTuple fuel allowInitExpr st = (some p, st') →
        ∃ elts, p = mkTuplePatternResult elts) ∧
    (∀ e : TuplePatternElt, e.getInit = none → e.isVararg = false →
        boundName e.pattern = "" →
        mkTuplePatternResult [e] = Pattern.paren e.pattern) ∧
    (∀ elts : List TuplePatternElt,
        (¬ ∃ e : TuplePatternElt, elts = [e] ∧ e.getInit = none ∧
          e.isVararg = false ∧ boundName e.pattern = "") →
        mkTuplePatternResult elts = Pattern.tuple elts) ∧
    mkTuplePatternResult [] = Pattern.tuple [] := by
  refine ⟨?_, ?_, ?_, rfl⟩
  · intro fuel allowInitExpr st p st' h
    exact (parsePatternTuple_shape fuel allowInitExpr st p st' h).imp
      (fun _ hh => hh.1)
  · intro e h1 h2 h3
    simp [mkTuplePatternResult, h1, h2, h3]
  · intro elts hne
    cases elts with
    | nil => rfl
    | cons a l =>
      cases l with
      | cons b l2 => rfl
      | nil =>
        simp only [mkTuplePatternResult]
        split
        · rename_i hc
          simp only [Bool.and_eq_true, Option.isNone_iff_eq_none, beq_iff_eq,
            Bool.not_eq_true'] at hc
          exact absurd ⟨a, rfl, hc.1.1, hc.2, hc.1.2⟩ hne
        · rfl

/-- Witness for C2: parsing empty parens yields a zero-element Tuple, and a
single typed anonymous element collapses to a Paren. -/
theorem claim2_witness :
    (∃ elts, Pattern.tuple [] = mkTuplePatternResult elts) ∧
    mkTuplePatternResult [⟨Pattern.typed Pattern.anyP (Ty.namedTy "Int"), none, none⟩] =
      Pattern.paren (Pattern.typed Pattern.anyP (Ty.namedTy "Int")) :=
  ⟨claim2_singleton_collapse.1 4 true
      ⟨[⟨TokKind.l_paren, 0⟩, ⟨TokKind.r_paren, 1⟩], []⟩ (Pattern.tuple []) ⟨[], []⟩ rfl,
   claim2_singleton_collapse.2.1
      ⟨Pattern.typed Pattern.anyP (Ty.namedTy "Int"), none, none⟩ rfl rfl rfl⟩

/-- Claim C3: in every Tuple produced by the tuple-pattern parser no element
other than the last is marked vararg; the enforcement step demotes a
previous vararg last element to non-vararg and emits a diagnostic, and the
parse continues. -/
theorem claim3_vararg_must_be_last :
    (∀ fuel allowInitExpr st elts st',
        parsePatternTuple fuel allowInitExpr st = (some (Pattern.tuple elts), st') →
        ∀ e ∈ elts.dropLast, e.isVararg = false) ∧
    (∀ (elts : List TuplePatternElt) (st : PState) (h : elts ≠ []),
        (elts.getLast h).isVararg = true →
        varargDemoteStep elts st =
          (elts.dropLast ++ [(elts.getLast h).revertToNonVariadic],
           diagnose DiagKind.ellipsisPatternNotAtEnd st) ∧
        ((elts.getLast h).revertToNonVariadic).isVararg = false) := by
  constructor
  · intro fuel allowInitExpr st elts st' h
    obtain ⟨elts₀, hp, hinv⟩ := parsePatternTuple_shape fuel allowInitExpr st _ st' h
    have he : elts = elts₀ := mkTuplePatternResult_tuple_eq elts₀ elts hp.symm
    rw [he]
    exact hinv
  · intro elts st h hv
    have hg : elts.getLast? = some (elts.getLast h) := List.getLast?_eq_getLast elts h
    constructor
    · simp [varargDemoteStep, hg, hv]
    · simp [TuplePatternElt.isVararg, TuplePatternElt.revertToNonVariadic,
        TuplePatternElt.varargBaseType]

/-- Witness for C3: the parse of (xs : S ..., y : Int) succeeds, and in the
resulting Tuple every element before the last is non-vararg (the first was
demoted). -/
theorem claim3_witness :
    ∀ e ∈ ([⟨Pattern.typed (Pattern.named ⟨"xs", 1⟩) (Ty.slice (Ty.namedTy "S")), none, none⟩,
            ⟨Pattern.typed (Pattern.named ⟨"y", 6⟩) (Ty.namedTy "Int"), none, none⟩] :
          List TuplePatternElt).dropLast, e.isVararg = false :=
  claim3_vararg_must_be_last.1 12 true
    ⟨[⟨TokKind.l_paren, 0⟩, ⟨TokKind.identifier "xs", 1⟩, ⟨TokKind.colon, 2⟩,
      ⟨TokKind.typeTok (Ty.namedTy "S"), 3⟩, ⟨TokKind.ellipsis, 4⟩, ⟨TokKind.comma, 5⟩,
      ⟨TokKind.identifier "y", 6⟩, ⟨TokKind.colon, 7⟩,
      ⟨TokKind.typeTok (Ty.namedTy "Int"), 8⟩, ⟨TokKind.r_paren, 9⟩], []⟩ _
    ⟨[], [DiagKind.ellipsisPatternNotAtEnd]⟩ rfl

/-- Claim C4: the selector-style first-clause conversion — a Paren's sole
sub-pattern becomes the body element while a fresh Any (Typed-wrapped with
the same type exactly when the sub-pattern was Typed) becomes the argument
element; a one-field Tuple's field carries over with its initializer and
vararg base type anonymized on the argument side; any other field count is
a fatal error. -/
theorem claim4_first_selector_conversion :
    (∀ sub st, firstSelectorElts (Pattern.paren sub) st =
        (some (⟨getFirstSelectorPattern sub, none, none⟩, ⟨sub, none, none⟩), st)) ∧
    (∀ (e : TuplePatternElt) st, firstSelectorElts (Pattern.tuple [e]) st =
        (some (⟨getFirstSelectorPattern e.pattern, e.getInit, e.varargBaseType⟩, e), st)) ∧
    (∀ (elts : List TuplePatternElt) st fuel, elts.length ≠ 1 →
        parseSelectorFunctionArguments fuel (Pattern.tuple elts) st =
          (none, diagnose DiagKind.funcSelectorWithNotOneArgument st)) ∧
    (∀ sub ty, getFirstSelectorPattern (Pattern.typed sub ty) =
        Pattern.typed Pattern.anyP ty) ∧
    (∀ p, isTyped p = false → getFirstSelectorPattern p = Pattern.anyP) := by
  refine ⟨fun sub st => rfl, fun e st => rfl, ?_, fun sub ty => rfl, ?_⟩
  · intro elts st fuel hne
    cases elts with
    | nil => rfl
    | cons a l =>
      cases l with
      | nil => exact absurd rfl hne
      | cons b l2 => rfl
  · intro p hp
    cases p <;> first
      | rfl
      | simp [isTyped] at hp

/-- Witness for C4: a zero-field first Tuple is a fatal error with the
selector-arity diagnostic. -/
theorem claim4_witness :
    parseSelectorFunctionArguments 3 (Pattern.tuple []) ⟨[], []⟩ =
      (none, ⟨[], [DiagKind.funcSelectorWithNotOneArgument]⟩) :=
  claim4_first_selector_conversion.2.2.1 [] ⟨[], []⟩ 3 (by decide)

/-- Claim C5: a selector clause whose leading identifier duplicates an entry
in the selector-name table gets a redefinition diagnostic while the table
keeps the first binding; on success the clause's elements are still appended
to both the argument and body trees and the loop continues, and a whole
signature parse with a duplicated selector name still succeeds (shown for
(x : Int) to (a : Int) to (b : Int), whose body tree has three elements). -/
theorem claim5_selector_redefinition :
    (∀ (d : VarDecl) (names : List (String × VarDecl)) (st : PState) (prev : VarDecl),
        names.lookup d.name = some prev →
        selectorNameCheck (Pattern.named d) names st =
          (names, diagnose DiagKind.redefinition st)) ∧
    (∀ fuel argElts bodyElts names st a b names₁ st₁ n l rest,
        st.toks = ⟨TokKind.identifier n, l⟩ :: rest →
        parseSelectorArgument fuel names st = (some (a, b), names₁, st₁) →
        selectorLoop (fuel + 1) argElts bodyElts names st =
          selectorLoop fuel (argElts ++ [a]) (bodyElts ++ [b]) names₁ st₁) ∧
    parseFunctionArguments 20
      ⟨[⟨TokKind.l_paren, 0⟩, ⟨TokKind.identifier "x", 1⟩, ⟨TokKind.colon, 2⟩,
        ⟨TokKind.typeTok (Ty.namedTy "Int"), 3⟩, ⟨TokKind.r_paren, 4⟩,
        ⟨TokKind.identifier "to", 5⟩, ⟨TokKind.l_paren, 6⟩, ⟨TokKind.identifier "a", 7⟩,
        ⟨TokKind.colon, 8⟩, ⟨TokKind.typeTok (Ty.namedTy "Int"), 9⟩, ⟨TokKind.r_paren, 10⟩,
        ⟨TokKind.identifier "to", 11⟩, ⟨TokKind.l_paren, 12⟩, ⟨TokKind.identifier "b", 13⟩,
        ⟨TokKind.colon, 14⟩, ⟨TokKind.typeTok (Ty.namedTy "Int"), 15⟩,
        ⟨TokKind.r_paren, 16⟩], []⟩ =
      (some ([Pattern.tuple
                [⟨Pattern.typed Pattern.anyP (Ty.namedTy "Int"), none, none⟩,
                 ⟨Pattern.typed (Pattern.named ⟨"to", 5⟩) (Ty.namedTy "Int"), none, none⟩,
                 ⟨Pattern.typed (Pattern.named ⟨"to", 11⟩) (Ty.namedTy "Int"), none, none⟩]],
             [Pattern.tuple
                [⟨Pattern.typed (Pattern.named ⟨"x", 1⟩) (Ty.namedTy "Int"), none, none⟩,
                 ⟨Pattern.typed (Pattern.named ⟨"a", 7⟩) (Ty.namedTy "Int"), none, none⟩,
                 ⟨Pattern.typed (Pattern.named ⟨"b", 13⟩) (Ty.namedTy "Int"), none, none⟩]]),
       ⟨[], [DiagKind.redefinition]⟩) := by
  refine ⟨?_, ?_, rfl⟩
  · intro d names st prev h
    simp [selectorNameCheck, h]
  · intro fuel argElts bodyElts names st a b names₁ st₁ n l rest h1 h2
    rw [selectorLoop]
    simp only [peek, h1]
    rw [h2]

/-- Witness for C5: the duplicate-name check at a concrete table leaves the
table unchanged (first binding wins) and emits the redefinition
diagnostic. -/
theorem claim5_witness :
    selectorNameCheck (Pattern.named ⟨"to", 11⟩) [("to", ⟨"to", 5⟩)] ⟨[], []⟩ =
      ([("to", ⟨"to", 5⟩)], ⟨[], [DiagKind.redefinition]⟩) :=
  claim5_selector_redefinition.1 ⟨"to", 11⟩ [("to", ⟨"to", 5⟩)] ⟨[], []⟩ ⟨"to", 5⟩ rfl

/-- Claim C1 concerns the disallowed-context initializer: the claim says the
parsed value is kept in the element (initializer non-null).  Evaluating the
embedded code on the element x = e with initializers forbidden shows the
parse succeeds and the diagnostic is emitted, but the element's initializer
is none — the value is dropped (the source's own FIXME admits the drop). -/
theorem claim1_disallowed_init_dropped :
    parsePatternTupleElement 5 false
      ⟨[⟨TokKind.identifier "x", 0⟩, ⟨TokKind.equal, 1⟩, ⟨TokKind.exprTok 7, 2⟩,
        ⟨TokKind.r_paren, 3⟩], []⟩ =
      (some ⟨Pattern.named ⟨"x", 0⟩, none, none⟩,
       ⟨[⟨TokKind.r_paren, 3⟩], [DiagKind.nonFuncDeclPatternInit]⟩) := rfl

/-- Claim C6: an element with a stored default initializer followed by an
ellipsis is diagnosed; the ellipsis is still consumed, the element keeps its
initializer, gets no vararg marking, and the element parse succeeds. -/
theorem claim6_init_ellipsis_conflict :
    ∀ fuel st pat st₁ e l₁ l₂ l₃ rest,
      parsePattern fuel st = (some pat, st₁) →
      st₁.toks = ⟨TokKind.equal, l₁⟩ :: ⟨TokKind.exprTok e, l₂⟩ ::
        ⟨TokKind.ellipsis, l₃⟩ :: rest →
      parsePatternTupleElement (fuel + 1) true st =
        (some ⟨pat, some e, none⟩,
         ⟨rest, st₁.diags ++ [DiagKind.tupleEllipsisInit]⟩) := by
  intro fuel st pat st₁ e l₁ l₂ l₃ rest h1 h2
  simp [parsePatternTupleElement, h1, h2, peek, consume, parseExpr,
    tupleEltEllipsis, diagnose, TuplePatternElt.getInit]

/-- Witness for C6: the element x = e ... keeps initializer 7, is left
non-vararg, and the conflict diagnostic is emitted. -/
theorem claim6_witness :
    parsePatternTupleElement 5 true
      ⟨[⟨TokKind.identifier "x", 0⟩, ⟨TokKind.equal, 1⟩, ⟨TokKind.exprTok 7, 2⟩,
        ⟨TokKind.ellipsis, 3⟩, ⟨TokKind.r_paren, 4⟩], []⟩ =
      (some ⟨Pattern.named ⟨"x", 0⟩, some 7, none⟩,
       ⟨[⟨TokKind.r_paren, 4⟩], [DiagKind.tupleEllipsisInit]⟩) :=
  claim6_init_ellipsis_conflict 4
    ⟨[⟨TokKind.identifier "x", 0⟩, ⟨TokKind.equal, 1⟩, ⟨TokKind.exprTok 7, 2⟩,
      ⟨TokKind.ellipsis, 3⟩, ⟨TokKind.r_paren, 4⟩], []⟩
    (Pattern.named ⟨"x", 0⟩)
    ⟨[⟨TokKind.equal, 1⟩, ⟨TokKind.exprTok 7, 2⟩, ⟨TokKind.ellipsis, 3⟩,
      ⟨TokKind.r_paren, 4⟩], []⟩ 7 1 2 3 [⟨TokKind.r_paren, 4⟩] rfl rfl

/-- Claim C7: an ellipsis after an element whose pattern is not Typed is
diagnosed and the element is returned non-vararg; the element parse still
succeeds (the ellipsis is consumed). -/
theorem claim7_untyped_ellipsis :
    ∀ fuel allowInitExpr st pat st₁ l rest,
      parsePattern fuel st = (some pat, st₁) →
      isTyped pat = false →
      st₁.toks = ⟨TokKind.ellipsis, l⟩ :: rest →
      parsePatternTupleElement (fuel + 1) allowInitExpr st =
        (some ⟨pat, none, none⟩,
         ⟨rest, st₁.diags ++ [DiagKind.untypedPatternEllipsis]⟩) := by
  intro fuel allowInitExpr st pat st₁ l rest h1 hty h2
  cases pat
  case typed sub ty => simp [isTyped] at hty
  all_goals
    simp [parsePatternTupleElement, h1, h2, peek, consume, tupleEltEllipsis,
      diagnose, TuplePatternElt.getInit, TuplePatternElt.pattern]

/-- Witness for C7: the untyped element x ... parses successfully with the
element left non-vararg and the untyped-ellipsis diagnostic emitted. -/
theorem claim7_witness :
    parsePatternTupleElement 4 true
      ⟨[⟨TokKind.identifier "x", 0⟩, ⟨TokKind.ellipsis, 1⟩, ⟨TokKind.r_paren, 2⟩], []⟩ =
      (some ⟨Pattern.named ⟨"x", 0⟩, none, none⟩,
       ⟨[⟨TokKind.r_paren, 2⟩], [DiagKind.untypedPatternEllipsis]⟩) :=
  claim7_untyped_ellipsis 3 true
    ⟨[⟨TokKind.identifier "x", 0⟩, ⟨TokKind.ellipsis, 1⟩, ⟨TokKind.r_paren, 2⟩], []⟩
    (Pattern.named ⟨"x", 0⟩)
    ⟨[⟨TokKind.ellipsis, 1⟩, ⟨TokKind.r_paren, 2⟩], []⟩ 1 [⟨TokKind.r_paren, 2⟩]
    rfl rfl rfl

/-- Claim C8: an ellipsis on a Typed element succeeds with no diagnostic;
the recorded vararg base type is the declared type and the Typed pattern's
own type becomes the slice of that declared type. -/
theorem claim8_vararg_type_rewrite :
    ∀ fuel allowInitExpr st sub ty st₁ l rest,
      parsePattern fuel st = (some (Pattern.typed sub ty), st₁) →
      st₁.toks = ⟨TokKind.ellipsis, l⟩ :: rest →
      parsePatternTupleElement (fuel + 1) allowInitExpr st =
        (some ⟨Pattern.typed sub (Ty.slice ty), none, some ty⟩,
         ⟨rest, st₁.diags⟩) := by
  intro fuel allowInitExpr st sub ty st₁ l rest h1 h2
  simp [parsePatternTupleElement, h1, h2, peek, consume, tupleEltEllipsis,
    TuplePatternElt.getInit, TuplePatternElt.pattern]

/-- Witness for C8: x : Int ... becomes variadic with vararg base type Int
and element type rewritten to slice Int, with no diagnostic. -/
theorem claim8_witness :
    parsePatternTupleElement 4 true
      ⟨[⟨TokKind.identifier "x", 0⟩, ⟨TokKind.colon, 1⟩,
        ⟨TokKind.typeTok (Ty.namedTy "Int"), 2⟩, ⟨TokKind.ellipsis, 3⟩,
        ⟨TokKind.r_paren, 4⟩], []⟩ =
      (some ⟨Pattern.typed (Pattern.named ⟨"x", 0⟩) (Ty.slice (Ty.namedTy "Int")),
             none, some (Ty.namedTy "Int")⟩,
       ⟨[⟨TokKind.r_paren, 4⟩], []⟩) :=
  claim8_vararg_type_rewrite 3 true
    ⟨[⟨TokKind.identifier "x", 0⟩, ⟨TokKind.colon, 1⟩,
      ⟨TokKind.typeTok (Ty.namedTy "Int"), 2⟩, ⟨TokKind.ellipsis, 3⟩,
      ⟨TokKind.r_paren, 4⟩], []⟩
    (Pattern.named ⟨"x", 0⟩) (Ty.namedTy "Int")
    ⟨[⟨TokKind.ellipsis, 3⟩, ⟨TokKind.r_paren, 4⟩], []⟩ 3 [⟨TokKind.r_paren, 4⟩]
    rfl rfl

/-- Claim C9: a leading reserved keyword fails the pattern atom with the
keyword diagnostic after consuming that one token; any other leading token
that is neither a left paren nor an identifier nor a keyword fails with the
expected-pattern diagnostic and consumes nothing. -/
theorem claim9_atom_failure_modes :
    (∀ fuel st k l rest, st.toks = ⟨TokKind.kw k, l⟩ :: rest →
        parsePatternAtom (fuel + 1) st =
          (none, ⟨rest, st.diags ++ [DiagKind.expectedPatternIsKeyword]⟩)) ∧
    (∀ fuel st, (∀ t, peek st ≠ TokKind.identifier t) →
        (∀ t, peek st ≠ TokKind.kw t) → peek st ≠ TokKind.l_paren →
        parsePatternAtom (fuel + 1) st =
          (none, ⟨st.toks, st.diags ++ [DiagKind.expectedPattern]⟩)) := by
  constructor
  · intro fuel st k l rest h
    simp [parsePatternAtom, peek, h, consume, diagnose]
  · intro fuel st hid hkw hlp
    rw [parsePatternAtom]
    cases hpk : peek st with
    | l_paren => exact absurd hpk hlp
    | identifier t => exact absurd hpk (hid t)
    | kw t => exact absurd hpk (hkw t)
    | r_paren => rfl
    | comma => rfl
    | colon => rfl
    | equal => rfl
    | ellipsis => rfl
    | arrow => rfl
    | eof => rfl
    | unknown => rfl
    | typeTok ty => rfl
    | exprTok e => rfl

/-- Witness for C9: a keyword token consumes itself and diagnoses; a comma
consumes nothing and diagnoses expected-pattern. -/
theorem claim9_witness :
    parsePatternAtom 3 ⟨[⟨TokKind.kw "func", 0⟩, ⟨TokKind.r_paren, 1⟩], []⟩ =
      (none, ⟨[⟨TokKind.r_paren, 1⟩], [DiagKind.expectedPatternIsKeyword]⟩) ∧
    parsePatternAtom 3 ⟨[⟨TokKind.comma, 0⟩], []⟩ =
      (none, ⟨[⟨TokKind.comma, 0⟩], [DiagKind.expectedPattern]⟩) :=
  ⟨claim9_atom_failure_modes.1 2 ⟨[⟨TokKind.kw "func", 0⟩, ⟨TokKind.r_paren, 1⟩], []⟩
      "func" 0 [⟨TokKind.r_paren, 1⟩] rfl,
   claim9_atom_failure_modes.2 2 ⟨[⟨TokKind.comma, 0⟩], []⟩
      (by intro t h; simp [peek] at h) (by intro t h; simp [peek] at h) (by decide)⟩

/-- Claim C10: an ellipsis marks an element variadic only when its pattern
is Typed at the outermost level; a typed pattern inside a grouping Paren
(as produced by singleton collapse) is diagnosed as untyped and left
non-vararg, even though Paren is transparent for bound-name queries; the
whole tuple element ((_ : Int)) ... evaluates accordingly. -/
theorem claim10_paren_wrapped_typed_not_vararg :
    (∀ fuel allowInitExpr st q st₁ l rest,
        parsePattern fuel st = (some (Pattern.paren q), st₁) →
        st₁.toks = ⟨TokKind.ellipsis, l⟩ :: rest →
        parsePatternTupleElement (fuel + 1) allowInitExpr st =
          (some ⟨Pattern.paren q, none, none⟩,
           ⟨rest, st₁.diags ++ [DiagKind.untypedPatternEllipsis]⟩)) ∧
    boundName (Pattern.paren (Pattern.typed Pattern.anyP (Ty.namedTy "Int"))) = "" ∧
    parsePatternTupleElement 20 false
      ⟨[⟨TokKind.l_paren, 0⟩, ⟨TokKind.l_paren, 1⟩, ⟨TokKind.identifier "_", 2⟩,
        ⟨TokKind.colon, 3⟩, ⟨TokKind.typeTok (Ty.namedTy "Int"), 4⟩,
        ⟨TokKind.r_paren, 5⟩, ⟨TokKind.r_paren, 6⟩, ⟨TokKind.ellipsis, 7⟩,
        ⟨TokKind.r_paren, 8⟩], []⟩ =
      (some ⟨Pattern.paren (Pattern.paren (Pattern.typed Pattern.anyP (Ty.namedTy "Int"))),
             none, none⟩,
       ⟨[⟨TokKind.r_paren, 8⟩], [DiagKind.untypedPatternEllipsis]⟩) := by
  refine ⟨?_, rfl, rfl⟩
  intro fuel allowInitExpr st q st₁ l rest h1 h2
  simp [parsePatternTupleElement, h1, h2, peek, consume, tupleEltEllipsis,
    diagnose, TuplePatternElt.getInit, TuplePatternElt.pattern]

/-- Witness for C10: the single-layer case ( _ : Int ) ... — the collapsed
Paren around a Typed pattern is left non-vararg with the diagnostic. -/
theorem claim10_witness :
    parsePatternTupleElement 11 false
      ⟨[⟨TokKind.l_paren, 0⟩, ⟨TokKind.identifier "_", 1⟩, ⟨TokKind.colon, 2⟩,
        ⟨TokKind.typeTok (Ty.namedTy "Int"), 3⟩, ⟨TokKind.r_paren, 4⟩,
        ⟨TokKind.ellipsis, 5⟩, ⟨TokKind.r_paren, 6⟩], []⟩ =
      (some ⟨Pattern.paren (Pattern.typed Pattern.anyP (Ty.namedTy "Int")), none, none⟩,
       ⟨[⟨TokKind.r_paren, 6⟩], [DiagKind.untypedPatternEllipsis]⟩) :=
  claim10_paren_wrapped_typed_not_vararg.1 10 false
    ⟨[⟨TokKind.l_paren, 0⟩, ⟨TokKind.identifier "_", 1⟩, ⟨TokKind.colon, 2⟩,
      ⟨TokKind.typeTok (Ty.namedTy "Int"), 3⟩, ⟨TokKind.r_paren, 4⟩,
      ⟨TokKind.ellipsis, 5⟩, ⟨TokKind.r_paren, 6⟩], []⟩
    (Pattern.typed Pattern.anyP (Ty.namedTy "Int"))
    ⟨[⟨TokKind.ellipsis, 5⟩, ⟨TokKind.r_paren, 6⟩], []⟩ 5 [⟨TokKind.r_paren, 6⟩]
    rfl rfl
